import Mathlib

/-!
Shallow embedding of the folo-reader local persistence layer
(Dexie database helpers in src/lib/db.ts) and proofs about its
expiration, dedup, starring, chat-session and note operations.

Collections are modelled as lists of records; every primary-key
operation (put, update, delete) acts on the row whose id matches,
mirroring the keyed tables of the store.  Timestamps are naturals
(milliseconds); Date.now() and crypto.randomUUID() are passed in as
explicit parameters.
-/

set_option autoImplicit false

namespace Folo

/-- Feed record, from the Feed interface in src/types/index.ts. -/
structure Feed where
  id : String
  title : String
  url : String
  siteUrl : Option String := none
  category : Option String := none
  description : Option String := none
  favicon : Option String := none
  aiFilter : Option String := none
  lastFetched : Option Nat := none
  createdAt : Nat
deriving DecidableEq, Repr

/-- Article record, from the Article interface in src/types/index.ts. -/
structure Article where
  id : String
  feedId : String
  title : String
  link : String
  pubDate : Nat
  author : Option String := none
  description : Option String := none
  isRead : Bool
  isStarred : Bool
  aiSummary : Option String := none
  summaryGeneratedAt : Option Nat := none
  expiresAt : Option Nat := none
deriving DecidableEq, Repr

/-- StarredArticle record: an Article snapshot plus content and starredAt. -/
structure StarredArticle extends Article where
  content : String
  starredAt : Nat
deriving DecidableEq, Repr

/-- Chat message role. -/
inductive Role where
  | user
  | assistant
deriving DecidableEq, Repr

/-- ChatMessage record. -/
structure ChatMessage where
  role : Role
  content : String
  timestamp : Nat
deriving DecidableEq, Repr

/-- ChatSession record. -/
structure ChatSession where
  id : String
  articleId : String
  messages : List ChatMessage
  model : String
  createdAt : Nat
  lastUpdatedAt : Nat
  expiresAt : Nat
deriving DecidableEq, Repr

/-- StarredChatSession record: a ChatSession snapshot plus star metadata. -/
structure StarredChatSession extends ChatSession where
  starredAt : Nat
  starTitle : Option String := none
  articleTitle : Option String := none
deriving DecidableEq, Repr

/-- Reference type of a note reference. -/
inductive RefType where
  | article
  | chat
deriving DecidableEq, Repr

/-- NoteReference record. -/
structure NoteReference where
  refType : RefType
  refId : String
  title : String
  snippet : String
  url : Option String := none
  addedAt : Nat
deriving DecidableEq, Repr

/-- Note record. -/
structure Note where
  id : String
  title : String
  content : String
  createdAt : Nat
  updatedAt : Nat
  tags : Option (List String) := none
  references : Option (List NoteReference) := none
deriving DecidableEq, Repr

/-- The whole database: the six logical collections of the store. -/
structure Store where
  feeds : List Feed
  articles : List Article
  starredArticles : List StarredArticle
  chatSessions : List ChatSession
  starredChatSessions : List StarredChatSession
  notes : List Note
deriving DecidableEq, Repr

/-- The empty database. -/
def Store.empty : Store :=
  { feeds := [], articles := [], starredArticles := [],
    chatSessions := [], starredChatSessions := [], notes := [] }

/-- 24 hours in milliseconds, the TTL used throughout db.ts. -/
def dayMs : Nat := 24 * 60 * 60 * 1000

/-- JavaScript `x || d` on an optional number: undefined and 0 are falsy. -/
def jsOrNum (x : Option Nat) (d : Nat) : Nat :=
  match x with
  | some v => if v = 0 then d else v
  | none => d

/-- Keyed put into the articles table: replace the row whose id matches,
else append (Dexie put / bulkPut semantics on a table keyed by id). -/
def putArticleById : List Article → Article → List Article
  | [], a => [a]
  | x :: xs, a => if x.id == a.id then a :: xs else x :: putArticleById xs a

/-- Keyed put into the starredArticles table. -/
def putStarredArticleById : List StarredArticle → StarredArticle → List StarredArticle
  | [], a => [a]
  | x :: xs, a => if x.id == a.id then a :: xs else x :: putStarredArticleById xs a

/-- Input to addFeed: a Feed without id and createdAt
(TypeScript Omit of Feed over id and createdAt). -/
structure FeedInput where
  title : String
  url : String
  siteUrl : Option String := none
  category : Option String := none
  description : Option String := none
  favicon : Option String := none
  aiFilter : Option String := none
  lastFetched : Option Nat := none
deriving DecidableEq, Repr

/-- The new row built by addFeed: the input spread plus the fresh id and
createdAt = now. -/
def feedFromInput (freshId : String) (now : Nat) (feed : FeedInput) : Feed :=
  { id := freshId, title := feed.title, url := feed.url,
    siteUrl := feed.siteUrl, category := feed.category,
    description := feed.description, favicon := feed.favicon,
    aiFilter := feed.aiFilter, lastFetched := feed.lastFetched,
    createdAt := now }

/-- dbHelpers.addFeed: look up an existing Feed by url; if found return its
id unchanged, otherwise add a new row with a fresh id and createdAt = now.
The fresh UUID and Date.now() are the freshId and now parameters. -/
def addFeed (freshId : String) (now : Nat) (feed : FeedInput) (s : Store) : String × Store :=
  match s.feeds.find? (fun x => x.url == feed.url) with
  | some existing => (existing.id, s)
  | none =>
    (freshId, { s with feeds := s.feeds ++ [feedFromInput freshId now feed] })

/-- Input to upsertArticles: an Article without isRead and isStarred
(TypeScript Omit of Article over isRead and isStarred). -/
structure ArticleInput where
  id : String
  feedId : String
  title : String
  link : String
  pubDate : Nat
  author : Option String := none
  description : Option String := none
  aiSummary : Option String := none
  summaryGeneratedAt : Option Nat := none
  expiresAt : Option Nat := none
deriving DecidableEq, Repr

/-- The per-item mapping inside dbHelpers.upsertArticles: spread the item,
set isRead and isStarred to false, and set expiresAt to the item value if
truthy else now + 24h (the JavaScript `article.expiresAt || expiresAt`). -/
def articleFromInput (now : Nat) (item : ArticleInput) : Article :=
  { id := item.id, feedId := item.feedId, title := item.title,
    link := item.link, pubDate := item.pubDate, author := item.author,
    description := item.description,
    isRead := false, isStarred := false,
    aiSummary := item.aiSummary, summaryGeneratedAt := item.summaryGeneratedAt,
    expiresAt := some (jsOrNum item.expiresAt (now + dayMs)) }

/-- dbHelpers.upsertArticles: map every incoming item through
articleFromInput and bulkPut the results into the articles table. -/
def upsertArticles (now : Nat) (items : List ArticleInput) (s : Store) : Store :=
  { s with articles := (items.map (articleFromInput now)).foldl putArticleById s.articles }

/-- dbHelpers.markAsRead: update the row with the given id, setting isRead.
A Dexie update on a missing key is a no-op. -/
def markAsRead (articleId : String) (s : Store) : Store :=
  { s with articles := s.articles.map fun a =>
      if a.id == articleId then { a with isRead := true } else a }

/-- dbHelpers.updateAISummary: set aiSummary, summaryGeneratedAt = now and
reset expiresAt to now + 24h on the row with the given id. -/
def updateAISummary (now : Nat) (articleId : String) (summary : String) (s : Store) : Store :=
  { s with articles := s.articles.map fun a =>
      if a.id == articleId then
        { a with aiSummary := some summary, summaryGeneratedAt := some now,
                 expiresAt := some (now + dayMs) }
      else a }

/-- dbHelpers.starArticle: read the Article; if absent do nothing; else set
isStarred on the Article row and put a StarredArticle snapshot that spreads
the article, attaches the given content and sets starredAt = now. -/
def starArticle (now : Nat) (articleId : String) (content : String) (s : Store) : Store :=
  match s.articles.find? (fun a => a.id == articleId) with
  | none => s
  | some article =>
    { s with
      articles := s.articles.map fun a =>
        if a.id == articleId then { a with isStarred := true } else a,
      starredArticles := putStarredArticleById s.starredArticles
        { toArticle := { article with isStarred := true },
          content := content, starredAt := now } }

/-- dbHelpers.unstarArticle: clear isStarred on the Article row (a no-op if
the row is gone) and delete the StarredArticle row with that id. -/
def unstarArticle (articleId : String) (s : Store) : Store :=
  { s with
    articles := s.articles.map fun a =>
      if a.id == articleId then { a with isStarred := false } else a,
    starredArticles := s.starredArticles.filter fun sa => !(sa.id == articleId) }

/-- dbHelpers.saveChatSession: find the session for the article; if found,
update it by its id (messages, model, lastUpdatedAt, fresh expiresAt); else
add a new session with a fresh id and createdAt = now. -/
def saveChatSession (freshId : String) (now : Nat) (articleId : String)
    (messages : List ChatMessage) (model : String) (s : Store) : Store :=
  let expiresAt := now + dayMs
  match s.chatSessions.find? (fun c => c.articleId == articleId) with
  | some existing =>
    { s with chatSessions := s.chatSessions.map fun c =>
        if c.id == existing.id then
          { c with messages := messages, model := model,
                   lastUpdatedAt := now, expiresAt := expiresAt }
        else c }
  | none =>
    { s with chatSessions := s.chatSessions ++
        [{ id := freshId, articleId := articleId, messages := messages,
           model := model, createdAt := now, lastUpdatedAt := now,
           expiresAt := expiresAt }] }

/-- dbHelpers.loadChatSession: find the session for the article; none gives
null; an expired session is deleted (by id) and null is returned; otherwise
the messages are returned and the store is untouched. -/
def loadChatSession (now : Nat) (articleId : String) (s : Store) :
    Option (List ChatMessage) × Store :=
  match s.chatSessions.find? (fun c => c.articleId == articleId) with
  | none => (none, s)
  | some session =>
    if session.expiresAt < now then
      (none, { s with chatSessions :=
        s.chatSessions.filter (fun c => !(c.id == session.id)) })
    else
      (some session.messages, s)

/-- The article selection of the cleanup sweep:
expiresAt below now and not starred. -/
def articleSweepSel (now : Nat) (a : Article) : Bool :=
  (match a.expiresAt with
   | some e => decide (e < now)
   | none => false) && !a.isStarred

/-- The chat-session selection of the cleanup sweep: expiresAt below now. -/
def chatSweepSel (now : Nat) (c : ChatSession) : Bool :=
  decide (c.expiresAt < now)

/-- dbHelpers.cleanupExpiredData, success path: count then delete the
expired non-starred articles, then count then delete the expired chat
sessions; the counts only guard logging and the conditional delete. -/
def cleanupExpiredData (now : Nat) (s : Store) : Store :=
  let expiredArticles := (s.articles.filter (articleSweepSel now)).length
  let s1 :=
    if expiredArticles > 0 then
      { s with articles := s.articles.filter (fun a => !(articleSweepSel now a)) }
    else s
  let expiredChats := (s1.chatSessions.filter (chatSweepSel now)).length
  if expiredChats > 0 then
    { s1 with chatSessions := s1.chatSessions.filter (fun c => !(chatSweepSel now c)) }
  else
    s1

/-- dbHelpers.cleanupExpiredData with fault injection: both steps run inside
one try/catch, so a throw in the article step (failArticles) jumps straight
to the catch and the chat step never runs; a throw in the chat step
(failChats) leaves the article deletions in place.  The failing delete is
modelled as having no effect.  The returned Bool is whether an error
escapes to the caller: the catch only logs, so it is always false. -/
def cleanupExpiredDataF (failArticles failChats : Bool) (now : Nat) (s : Store) :
    Store × Bool :=
  if failArticles then
    (s, false)
  else
    let s1 := { s with articles := s.articles.filter (fun a => !(articleSweepSel now a)) }
    if failChats then
      (s1, false)
    else
      ({ s1 with chatSessions := s1.chatSessions.filter (fun c => !(chatSweepSel now c)) }, false)

/-- A partial note update: the TypeScript
Partial of Note over everything but id and createdAt.
A some field is present in the update object, none is absent. -/
structure NoteUpdate where
  title : Option String := none
  content : Option String := none
  tags : Option (Option (List String)) := none
  references : Option (Option (List NoteReference)) := none
  updatedAt : Option Nat := none
deriving DecidableEq, Repr

/-- Merge a partial update into a note (object spread semantics). -/
def applyNoteUpdate (u : NoteUpdate) (n : Note) : Note :=
  { n with
    title := u.title.getD n.title,
    content := u.content.getD n.content,
    tags := u.tags.getD n.tags,
    references := u.references.getD n.references,
    updatedAt := u.updatedAt.getD n.updatedAt }

/-- dbHelpers.updateNote: a keyed update that spreads the given fields and
sets updatedAt = now.  A Dexie update on a missing key resolves as a no-op
(it does not throw), so a missing note leaves the store unchanged. -/
def updateNote (now : Nat) (noteId : String) (u : NoteUpdate) (s : Store) : Store :=
  { s with notes := s.notes.map fun n =>
      if n.id == noteId then applyNoteUpdate { u with updatedAt := some now } n else n }

/-- dbHelpers.addReferenceToNote: read the note; a missing note throws
the string Note not found (the store is untouched, the error reaches the
caller); an existing note gets the reference appended to its references
array (empty when absent) and updatedAt = now. -/
def addReferenceToNote (now : Nat) (noteId : String) (reference : NoteReference)
    (s : Store) : Except String Store :=
  match s.notes.find? (fun n => n.id == noteId) with
  | none => .error "Note not found"
  | some note =>
    let references := (note.references.getD []) ++ [reference]
    .ok { s with notes := s.notes.map fun n =>
        if n.id == noteId then
          { n with references := some references, updatedAt := now }
        else n }

/-- One call to saveChatSession: the fresh UUID, Date.now(), the messages
and the model of that call. -/
structure SaveCall where
  freshId : String
  now : Nat
  messages : List ChatMessage
  model : String
deriving DecidableEq, Repr

/-- Run a sequence of saveChatSession calls for one articleId. -/
def runSaves (articleId : String) (calls : List SaveCall) (s : Store) : Store :=
  calls.foldl (fun st c => saveChatSession c.freshId c.now articleId c.messages c.model st) s

/-- Concrete feed item as mapped by refreshFeed in uiStore.ts: the mapping
builds id, feedId, title, link, pubDate and author only, so expiresAt is
absent on every refresh. -/
def exItem : ArticleInput :=
  { id := "a1", feedId := "f1", title := "t", link := "l", pubDate := 5 }

/-- Store after a first refresh of exItem at time 100, then marking it
read and starring it at time 150. -/
def exMid : Store :=
  starArticle 150 "a1" "body" (markAsRead "a1" (upsertArticles 100 [exItem] Store.empty))

/-- Store after a second refresh of the same item at time 200. -/
def exFinal : Store := upsertArticles 200 [exItem] exMid

/-- Concrete chat session that is already expired at time 100. -/
def exSession : ChatSession :=
  { id := "s1", articleId := "a1", messages := [], model := "m",
    createdAt := 0, lastUpdatedAt := 0, expiresAt := 50 }

/-- Store holding only the expired chat session. -/
def exChatStore : Store := { Store.empty with chatSessions := [exSession] }

/-- Concrete note used by the note examples. -/
def exNote : Note :=
  { id := "n1", title := "t", content := "c", createdAt := 1, updatedAt := 1 }

/-- Store holding only that note. -/
def exNoteStore : Store := { Store.empty with notes := [exNote] }

/-- Concrete note update setting only the title. -/
def exNoteUpd : NoteUpdate := { title := some "t2" }

/-- Concrete article row used by witness instantiations. -/
def exArt : Article :=
  { id := "a1", feedId := "f1", title := "t", link := "l", pubDate := 5,
    isRead := false, isStarred := false, expiresAt := some 90 }

/-- Store holding only that article. -/
def exArtStore : Store := { Store.empty with articles := [exArt] }

/-- Concrete feed input used by the addFeed witness. -/
def exFeedInput : FeedInput := { title := "f", url := "http://example.test/rss" }

/-- Concrete first save call for the chat-session witness. -/
def exSave : SaveCall := { freshId := "s1", now := 100, messages := [], model := "m" }

/-- Concrete second save call for the chat-session witness. -/
def exSave2 : SaveCall :=
  { freshId := "s2", now := 300,
    messages := [{ role := .user, content := "hi", timestamp := 250 }], model := "m2" }

/-- Concrete note reference used by the note witnesses. -/
def exRef : NoteReference :=
  { refType := .article, refId := "a1", title := "t", snippet := "sn", addedAt := 7 }

/-- A member satisfying the predicate of a filter with at most one hit is
the whole filter. -/
theorem filter_singleton_of_mem {α : Type} (p : α → Bool) (l : List α) (x : α)
    (hx : x ∈ l) (hp : p x = true) (h1 : (l.filter p).length ≤ 1) :
    l.filter p = [x] := by
  have hxf : x ∈ l.filter p := List.mem_filter.2 ⟨hx, hp⟩
  cases hfl : l.filter p with
  | nil =>
    rw [hfl] at hxf
    cases hxf
  | cons y ys =>
    rw [hfl] at hxf h1
    cases ys with
    | nil =>
      have hxy : x = y := by simpa using hxf
      rw [hxy]
    | cons z zs =>
      simp [List.length_cons] at h1

/-- A member satisfying the predicate of a find? with at most one hit in
the list is the found element. -/
theorem find?_eq_some_of_unique {α : Type} (p : α → Bool) (l : List α) (x : α)
    (hx : x ∈ l) (hp : p x = true) (h1 : (l.filter p).length ≤ 1) :
    l.find? p = some x := by
  induction l with
  | nil => cases hx
  | cons y ys ih =>
    cases hy : p y with
    | true =>
      have hfy : (y :: ys).filter p = y :: ys.filter p := by
        simp [List.filter_cons, hy]
      rw [hfy] at h1
      have hys : ys.filter p = [] := by
        simpa using h1
      cases hx with
      | head => simp [List.find?_cons, hy]
      | tail _ hx' =>
        have : x ∈ ys.filter p := List.mem_filter.2 ⟨hx', hp⟩
        rw [hys] at this
        cases this
    | false =>
      have hxy : ¬ x = y := by
        intro he
        rw [he, hy] at hp
        cases hp
      have hx' : x ∈ ys := by
        cases hx with
        | head => exact absurd rfl hxy
        | tail _ hx' => exact hx'
      have h1' : (ys.filter p).length ≤ 1 := by
        have : (y :: ys).filter p = ys.filter p := by
          simp [List.filter_cons, hy]
        rw [this] at h1
        exact h1
      simpa [List.find?_cons, hy] using ih hx' h1'

/-- Filter commutes with a map that does not change the predicate value. -/
theorem filter_map_comm {α : Type} (p : α → Bool) (f : α → α)
    (hpf : ∀ x, p (f x) = p x) (l : List α) :
    (l.map f).filter p = (l.filter p).map f := by
  induction l with
  | nil => rfl
  | cons x xs ih =>
    cases hx : p x with
    | true => simp [List.filter_cons, hpf, hx, ih]
    | false => simp [List.filter_cons, hpf, hx, ih]

/-- A filter that keeps nothing means the complementary filter keeps all. -/
theorem filter_not_eq_self_of_empty {α : Type} (p : α → Bool) (l : List α)
    (h : (l.filter p).length = 0) : l.filter (fun x => !(p x)) = l := by
  refine List.filter_eq_self.2 ?_
  intro a ha
  have hnp := List.filter_eq_nil_iff.1 (List.length_eq_zero.1 h) a ha
  simp [Bool.not_eq_true] at hnp
  simp [hnp]

/-- Keyed put into the articles table replaces the unique row with the same
id: the rows with that id after the put are exactly the new row. -/
theorem putArticleById_filter (a : Article) (xs : List Article)
    (h : (xs.filter (fun x => x.id == a.id)).length ≤ 1) :
    (putArticleById xs a).filter (fun x => x.id == a.id) = [a] := by
  induction xs with
  | nil => simp [putArticleById, List.filter_cons]
  | cons x xs ih =>
    cases hx : x.id == a.id with
    | true =>
      have hfy : (x :: xs).filter (fun x => x.id == a.id)
          = x :: xs.filter (fun x => x.id == a.id) := by
        simp [List.filter_cons, hx]
      rw [hfy] at h
      have hxs : xs.filter (fun x => x.id == a.id) = [] := by
        simpa using h
      simp [putArticleById, hx, List.filter_cons, hxs]
    | false =>
      have hskip : (x :: xs).filter (fun x => x.id == a.id)
          = xs.filter (fun x => x.id == a.id) := by
        simp [List.filter_cons, hx]
      rw [hskip] at h
      simp [putArticleById, hx, List.filter_cons, ih h]

/-- The cleanup sweep is the two filters: the counting queries only guard
logging and the conditional deletes, and do not change the result. -/
theorem cleanupExpiredData_eq (now : Nat) (s : Store) :
    cleanupExpiredData now s =
      { s with
        articles := s.articles.filter (fun a => !(articleSweepSel now a)),
        chatSessions := s.chatSessions.filter (fun c => !(chatSweepSel now c)) } := by
  unfold cleanupExpiredData
  by_cases h1 : (s.articles.filter (articleSweepSel now)).length > 0
  · simp only [h1, if_pos]
    by_cases h2 : (s.chatSessions.filter (chatSweepSel now)).length > 0
    · simp only [h2, if_pos]
    · simp only [h2, if_neg, not_false_eq_true]
      have := filter_not_eq_self_of_empty (chatSweepSel now) s.chatSessions (by omega)
      rw [this]
  · simp only [h1, if_neg, not_false_eq_true]
    have ha := filter_not_eq_self_of_empty (articleSweepSel now) s.articles (by omega)
    by_cases h2 : (s.chatSessions.filter (chatSweepSel now)).length > 0
    · simp only [h2, if_pos]
      rw [ha]
    · simp only [h2, if_neg, not_false_eq_true]
      have hc := filter_not_eq_self_of_empty (chatSweepSel now) s.chatSessions (by omega)
      rw [ha, hc]

/-- The article selection of the sweep, spelled out. -/
theorem articleSweepSel_iff (now : Nat) (a : Article) :
    articleSweepSel now a = true ↔
      ∃ e, a.expiresAt = some e ∧ e < now ∧ a.isStarred = false := by
  unfold articleSweepSel
  cases hx : a.expiresAt with
  | none => simp
  | some e => simp [Bool.and_eq_true, Bool.not_eq_true']

/-- One saveChatSession call on a store with at most one session for the
article leaves exactly one session for it, carrying the saved messages and
model, a fresh TTL, and the id of the prior session when one existed. -/
theorem saveChatSession_step (fid : String) (now : Nat) (aid : String)
    (msgs : List ChatMessage) (model : String) (s : Store)
    (h : (s.chatSessions.filter (fun c => c.articleId == aid)).length ≤ 1) :
    ∃ u : ChatSession,
      (saveChatSession fid now aid msgs model s).chatSessions.filter
          (fun c => c.articleId == aid) = [u] ∧
      u.articleId = aid ∧ u.messages = msgs ∧ u.model = model ∧
      u.lastUpdatedAt = now ∧ u.expiresAt = now + dayMs ∧
      ∀ c0 ∈ s.chatSessions, c0.articleId = aid → c0.id = u.id := by
  cases hf : s.chatSessions.find? (fun c => c.articleId == aid) with
  | none =>
    refine ⟨{ id := fid, articleId := aid, messages := msgs, model := model,
              createdAt := now, lastUpdatedAt := now, expiresAt := now + dayMs },
            ?_, rfl, rfl, rfl, rfl, rfl, ?_⟩
    · have hempty : s.chatSessions.filter (fun c => c.articleId == aid) = [] :=
        List.filter_eq_nil_iff.2 (List.find?_eq_none.1 hf)
      simp [saveChatSession, hf, List.filter_append, hempty, List.filter_cons]
    · intro c0 hc0 hae
      exact absurd (by simp [hae]) (List.find?_eq_none.1 hf c0 hc0)
  | some e =>
    have hpe := List.find?_some hf
    have heaid : e.articleId = aid := by simpa using hpe
    have hme : e ∈ s.chatSessions := List.mem_of_find?_eq_some hf
    have hfe : s.chatSessions.filter (fun c => c.articleId == aid) = [e] :=
      filter_singleton_of_mem _ _ _ hme hpe h
    refine ⟨{ e with messages := msgs, model := model, lastUpdatedAt := now, expiresAt := now + dayMs }, ?_, heaid, rfl, rfl, rfl, rfl, ?_⟩
    · have hcomm := filter_map_comm (fun c : ChatSession => c.articleId == aid)
        (fun c => if c.id == e.id then
            { c with messages := msgs, model := model,
                     lastUpdatedAt := now, expiresAt := now + dayMs }
          else c)
        (fun c => by cases hc : c.id == e.id <;> simp [hc])
        s.chatSessions
      simp only [saveChatSession, hf]
      rw [hcomm, hfe]
      simp [List.map_cons]
    · intro c0 hc0 hae
      have hc0f : c0 ∈ s.chatSessions.filter (fun c => c.articleId == aid) :=
        List.mem_filter.2 ⟨hc0, by simp [hae]⟩
      rw [hfe] at hc0f
      have : c0 = e := by simpa using hc0f
      rw [this]

/-- Running any sequence of saves preserves the at-most-one-session
invariant for the article. -/
theorem runSaves_filter_le_one (aid : String) (calls : List SaveCall) (s : Store)
    (h : (s.chatSessions.filter (fun c => c.articleId == aid)).length ≤ 1) :
    ((runSaves aid calls s).chatSessions.filter
        (fun c => c.articleId == aid)).length ≤ 1 := by
  induction calls generalizing s with
  | nil => exact h
  | cons c cs ih =>
    obtain ⟨u, hu, -⟩ := saveChatSession_step c.freshId c.now aid c.messages c.model s h
    have hone : ((saveChatSession c.freshId c.now aid c.messages c.model s).chatSessions.filter
        (fun x => x.articleId == aid)).length ≤ 1 := by
      rw [hu]
      simp
    exact ih _ hone

/-- C2: one run of the cleanup sweep deletes exactly the Article rows with
expiresAt in the past and isStarred false (starred articles survive
regardless of expiry, and every non-starred expired article is removed) and
exactly the ChatSession rows with expiresAt in the past, and it never
touches the starredArticles or starredChatSessions collections. -/
theorem cleanupExpiredData_exact (now : Nat) (s : Store) :
    (∀ a : Article, a ∈ (cleanupExpiredData now s).articles ↔
        a ∈ s.articles ∧ ¬ ∃ e, a.expiresAt = some e ∧ e < now ∧ a.isStarred = false) ∧
    (∀ c : ChatSession, c ∈ (cleanupExpiredData now s).chatSessions ↔
        c ∈ s.chatSessions ∧ ¬ c.expiresAt < now) ∧
    (cleanupExpiredData now s).starredArticles = s.starredArticles ∧
    (cleanupExpiredData now s).starredChatSessions = s.starredChatSessions := by
  rw [cleanupExpiredData_eq]
  refine ⟨?_, ?_, rfl, rfl⟩
  · intro a
    rw [List.mem_filter]
    constructor
    · rintro ⟨hmem, hkeep⟩
      refine ⟨hmem, ?_⟩
      intro hex
      rw [(articleSweepSel_iff now a).2 hex] at hkeep
      simp at hkeep
    · rintro ⟨hmem, hnex⟩
      refine ⟨hmem, ?_⟩
      cases hsel : articleSweepSel now a with
      | false => simp
      | true => exact absurd ((articleSweepSel_iff now a).1 hsel) hnex
  · intro c
    rw [List.mem_filter]
    simp [chatSweepSel]

/-- C3 counterexample: with the article-cleanup step throwing, a store
holding a single already-expired chat session comes out of the sweep with
that session still present — the chat-session step was not attempted,
because both steps sit inside one try/catch. -/
theorem cleanup_step2_skipped_counterexample :
    (cleanupExpiredDataF true false 100 exChatStore).1.chatSessions = [exSession] ∧
    exSession.expiresAt < 100 := by
  exact ⟨rfl, by decide⟩

/-- C3 amended: if the article-cleanup step throws, the error is caught and
logged and never reaches the caller, but the chat-session step is skipped
in that run (the whole store is returned unchanged); a failure in the chat
step alone keeps the article deletions and likewise does not propagate. -/
theorem cleanup_fault_amended (fc : Bool) (now : Nat) (s : Store) :
    cleanupExpiredDataF true fc now s = (s, false) ∧
    (cleanupExpiredDataF false true now s).1.chatSessions = s.chatSessions ∧
    (cleanupExpiredDataF false true now s).1.articles
      = s.articles.filter (fun a => !(articleSweepSel now a)) ∧
    (cleanupExpiredDataF false fc now s).2 = false := by
  refine ⟨rfl, rfl, rfl, ?_⟩
  cases fc <;> rfl

/-- C7: updateAISummary on an existing article sets aiSummary, sets
summaryGeneratedAt to now and resets expiresAt to now + 24h, and a cleanup
sweep run at any time before now + 24h keeps the updated article. -/
theorem updateAISummary_touch (now sweepT : Nat) (summary : String) (s : Store)
    (a : Article) (ha : a ∈ s.articles) (hsweep : sweepT < now + dayMs) :
    ({ a with aiSummary := some summary, summaryGeneratedAt := some now, expiresAt := some (now + dayMs) } ∈ (updateAISummary now a.id summary s).articles) ∧
    ({ a with aiSummary := some summary, summaryGeneratedAt := some now, expiresAt := some (now + dayMs) } ∈ (cleanupExpiredData sweepT (updateAISummary now a.id summary s)).articles) := by
  have hmem : ({ a with aiSummary := some summary, summaryGeneratedAt := some now, expiresAt := some (now + dayMs) } : Article) ∈ (updateAISummary now a.id summary s).articles := by
    have hmap := List.mem_map_of_mem
      (fun x : Article => if x.id == a.id then { x with aiSummary := some summary, summaryGeneratedAt := some now, expiresAt := some (now + dayMs) } else x) ha
    simpa [updateAISummary] using hmap
  refine ⟨hmem, ?_⟩
  rw [cleanupExpiredData_eq]
  refine List.mem_filter.2 ⟨hmem, ?_⟩
  have hlt : ¬ (now + dayMs < sweepT) := by omega
  simp [articleSweepSel, hlt]

/-- Witness for C7 at a concrete already-expired article: the article with
expiresAt 90 gets expiresAt 100 + 24h and survives a sweep at time 200. -/
theorem updateAISummary_touch_witness :
    ({ exArt with aiSummary := some "sum", summaryGeneratedAt := some 100, expiresAt := some (100 + dayMs) } ∈ (cleanupExpiredData 200 (updateAISummary 100 "a1" "sum" exArtStore)).articles) :=
  (updateAISummary_touch 100 200 "sum" exArtStore exArt (by decide) (by decide)).2

/-- C1 counterexample: refreshing the same feed item twice is not the
claimed idempotent merge.  After a first upsert at time 100, marking the
article read and starring it, a second upsert of the same item at time 200
bulk-puts a whole replacement row: isRead and isStarred fall back to false
and expiresAt moves from 100 + 24h to 200 + 24h, so previously-true flags
are not preserved and the expiry is extended past its first-set value. -/
theorem upsert_twice_counterexample :
    (exMid.articles.map fun a => (a.isRead, a.isStarred, a.expiresAt))
      = [(true, true, some 86400100)] ∧
    (exFinal.articles.map fun a => (a.isRead, a.isStarred, a.expiresAt))
      = [(false, false, some 86400200)] := by
  exact ⟨rfl, rfl⟩

/-- C1 amended: upserting the same item (carrying no expiresAt, as the
items mapped by refreshFeed never do) twice leaves exactly one Article row
with that id, but that row is the full replacement built by the second
call: isRead and isStarred are reset to false and expiresAt is set to the
second call time + 24h, extending the expiry set by the first call. -/
theorem upsertArticles_twice_amended (t1 t2 : Nat) (item : ArticleInput) (s : Store)
    (hexp : item.expiresAt = none)
    (h : (s.articles.filter (fun a => a.id == item.id)).length ≤ 1) :
    (upsertArticles t2 [item] (upsertArticles t1 [item] s)).articles.filter
        (fun a => a.id == item.id) = [articleFromInput t2 item] ∧
    (articleFromInput t2 item).isRead = false ∧
    (articleFromInput t2 item).isStarred = false ∧
    (articleFromInput t2 item).expiresAt = some (t2 + dayMs) := by
  have h1 : (upsertArticles t1 [item] s).articles.filter (fun a => a.id == item.id)
      = [articleFromInput t1 item] :=
    putArticleById_filter (articleFromInput t1 item) s.articles h
  have h1len : ((upsertArticles t1 [item] s).articles.filter
      (fun a => a.id == item.id)).length ≤ 1 := by
    rw [h1]
    simp
  have h2 : (upsertArticles t2 [item] (upsertArticles t1 [item] s)).articles.filter
      (fun a => a.id == item.id) = [articleFromInput t2 item] :=
    putArticleById_filter (articleFromInput t2 item) _ h1len
  exact ⟨h2, rfl, rfl, by simp [articleFromInput, jsOrNum, hexp]⟩

/-- Witness for the amended C1 at the concrete refresh item. -/
theorem upsertArticles_twice_amended_witness :
    (upsertArticles 200 [exItem] (upsertArticles 100 [exItem] Store.empty)).articles.filter
        (fun a => a.id == "a1") = [articleFromInput 200 exItem] :=
  (upsertArticles_twice_amended 100 200 exItem Store.empty rfl (by decide)).1

/-- C4: adding a feed with the same url twice returns the same id both
times, the second call leaves the store exactly as the first left it, and
afterward exactly one Feed row has that url. -/
theorem addFeed_dedup (id1 id2 : String) (t1 t2 : Nat) (f : FeedInput) (s : Store)
    (h : (s.feeds.filter (fun x => x.url == f.url)).length ≤ 1) :
    (addFeed id2 t2 f (addFeed id1 t1 f s).2).1 = (addFeed id1 t1 f s).1 ∧
    (addFeed id2 t2 f (addFeed id1 t1 f s).2).2 = (addFeed id1 t1 f s).2 ∧
    (((addFeed id1 t1 f s).2).feeds.filter (fun x => x.url == f.url)).length = 1 := by
  cases hf : s.feeds.find? (fun x => x.url == f.url) with
  | some e =>
    have h1 : addFeed id1 t1 f s = (e.id, s) := by
      unfold addFeed
      rw [hf]
    rw [h1]
    have hpe := List.find?_some hf
    have hme := List.mem_of_find?_eq_some hf
    have hfe := filter_singleton_of_mem _ _ _ hme hpe h
    have h2 : addFeed id2 t2 f s = (e.id, s) := by
      unfold addFeed
      rw [hf]
    rw [h2, hfe]
    exact ⟨rfl, rfl, rfl⟩
  | none =>
    have hempty : s.feeds.filter (fun x => x.url == f.url) = [] :=
      List.filter_eq_nil_iff.2 (List.find?_eq_none.1 hf)
    have h1 : addFeed id1 t1 f s
        = (id1, { s with feeds := s.feeds ++ [feedFromInput id1 t1 f] }) := by
      unfold addFeed
      rw [hf]
    rw [h1]
    have hf2 : ({ s with feeds := s.feeds ++ [feedFromInput id1 t1 f] } : Store).feeds.find?
        (fun x => x.url == f.url) = some (feedFromInput id1 t1 f) := by
      simp [List.find?_append, hf, List.find?_cons, feedFromInput]
    have h2 : addFeed id2 t2 f { s with feeds := s.feeds ++ [feedFromInput id1 t1 f] }
        = ((feedFromInput id1 t1 f).id, { s with feeds := s.feeds ++ [feedFromInput id1 t1 f] }) := by
      unfold addFeed
      rw [hf2]
    rw [h2]
    refine ⟨rfl, rfl, ?_⟩
    simp [List.filter_append, hempty, List.filter_cons, feedFromInput]

/-- Witness for C4 on the empty store. -/
theorem addFeed_dedup_witness :
    (addFeed "id2" 8 exFeedInput (addFeed "id1" 7 exFeedInput Store.empty).2).1
      = (addFeed "id1" 7 exFeedInput Store.empty).1 :=
  (addFeed_dedup "id1" "id2" 7 8 exFeedInput Store.empty (by decide)).1

/-- C5: starting from a store with at most one ChatSession for the
article, any nonempty sequence of saveChatSession calls for that article
leaves exactly one ChatSession row for it; that row carries the messages
of the latest save and expiresAt equal to the latest save time + 24h, and
the final save updated the existing row in place: the surviving id equals
the id present before the final save whenever a session already existed. -/
theorem saveChatSession_single_per_article (aid : String) (calls : List SaveCall)
    (d : SaveCall) (s : Store)
    (h : (s.chatSessions.filter (fun c => c.articleId == aid)).length ≤ 1) :
    ((runSaves aid (calls ++ [d]) s).chatSessions.filter
        (fun c => c.articleId == aid)).length = 1 ∧
    (∀ c ∈ (runSaves aid (calls ++ [d]) s).chatSessions, c.articleId = aid →
        c.messages = d.messages ∧ c.expiresAt = d.now + dayMs) ∧
    (∀ c0 ∈ (runSaves aid calls s).chatSessions, c0.articleId = aid →
      ∀ c ∈ (runSaves aid (calls ++ [d]) s).chatSessions, c.articleId = aid →
        c.id = c0.id) := by
  have hpre := runSaves_filter_le_one aid calls s h
  have hlast : runSaves aid (calls ++ [d]) s
      = saveChatSession d.freshId d.now aid d.messages d.model (runSaves aid calls s) := by
    simp [runSaves, List.foldl_append]
  obtain ⟨u, hu, huaid, humsgs, humodel, hulast, huexp, hustab⟩ :=
    saveChatSession_step d.freshId d.now aid d.messages d.model (runSaves aid calls s) hpre
  have hcfin : ∀ c ∈ (runSaves aid (calls ++ [d]) s).chatSessions, c.articleId = aid → c = u := by
    intro c hc hca
    have : c ∈ (runSaves aid (calls ++ [d]) s).chatSessions.filter
        (fun x => x.articleId == aid) := List.mem_filter.2 ⟨hc, by simp [hca]⟩
    rw [hlast, hu] at this
    simpa using this
  refine ⟨?_, ?_, ?_⟩
  · rw [hlast, hu]
    rfl
  · intro c hc hca
    rw [hcfin c hc hca]
    exact ⟨humsgs, huexp⟩
  · intro c0 hc0 hca0 c hc hca
    rw [hcfin c hc hca]
    exact (hustab c0 hc0 hca0).symm

/-- Witness for C5: two saves for one article on the empty store. -/
theorem saveChatSession_single_per_article_witness :
    ((runSaves "a1" ([exSave] ++ [exSave2]) Store.empty).chatSessions.filter
        (fun c => c.articleId == "a1")).length = 1 :=
  (saveChatSession_single_per_article "a1" [exSave] exSave2 Store.empty (by decide)).1

/-- C6: starring an existing article and then unstarring it leaves the
article row present with isStarred false and every other field as before
starring, and leaves no StarredArticle row with that id. -/
theorem star_unstar_roundtrip (t : Nat) (content : String) (s : Store) (a : Article)
    (ha : a ∈ s.articles) :
    ({ a with isStarred := false } ∈ (unstarArticle a.id (starArticle t a.id content s)).articles) ∧
    (∀ sa ∈ (unstarArticle a.id (starArticle t a.id content s)).starredArticles,
        ¬ sa.id = a.id) := by
  constructor
  · cases hf : s.articles.find? (fun x => x.id == a.id) with
    | none =>
      exact absurd (by simp) (List.find?_eq_none.1 hf a ha)
    | some e =>
      have hmem1 : ({ a with isStarred := true } : Article)
          ∈ (starArticle t a.id content s).articles := by
        have hmap := List.mem_map_of_mem
          (fun x : Article => if x.id == a.id then { x with isStarred := true } else x) ha
        simpa [starArticle, hf] using hmap
      have hmap2 := List.mem_map_of_mem
        (fun x : Article => if x.id == a.id then { x with isStarred := false } else x) hmem1
      simp only [beq_self_eq_true, if_true] at hmap2
      simpa [unstarArticle] using hmap2
  · intro sa hsa
    have h2 : sa ∈ (starArticle t a.id content s).starredArticles ∧ ¬ sa.id = a.id := by
      simpa [unstarArticle] using hsa
    exact h2.2

/-- Witness for C6 at the concrete article. -/
theorem star_unstar_roundtrip_witness :
    ({ exArt with isStarred := false }
        ∈ (unstarArticle "a1" (starArticle 150 "a1" "body" exArtStore)).articles) :=
  (star_unstar_roundtrip 150 "body" exArtStore exArt (by decide)).1

/-- C8: adding a reference to a missing note fails with the Note not found
error (no note is created: the operation throws before any write), and on
an existing note it appends the reference to the references array, bumps
updatedAt to now, and adds no rows. -/
theorem addReferenceToNote_spec (now : Nat) (nid : String) (ref : NoteReference) (s : Store)
    (huniq : (s.notes.filter (fun n => n.id == nid)).length ≤ 1) :
    ((∀ n ∈ s.notes, ¬ n.id = nid) →
        addReferenceToNote now nid ref s = .error "Note not found") ∧
    (∀ note ∈ s.notes, note.id = nid →
      ∃ s', addReferenceToNote now nid ref s = .ok s' ∧
        ({ note with references := some ((note.references.getD []) ++ [ref]),
                     updatedAt := now } : Note) ∈ s'.notes ∧
        s'.notes.length = s.notes.length) := by
  constructor
  · intro hmiss
    have hf : s.notes.find? (fun n => n.id == nid) = none :=
      List.find?_eq_none.2 (fun n hn => by simp [hmiss n hn])
    unfold addReferenceToNote
    rw [hf]
  · intro note hmem hid
    have hf : s.notes.find? (fun n => n.id == nid) = some note :=
      find?_eq_some_of_unique _ _ _ hmem (by simp [hid]) huniq
    refine ⟨{ s with notes := s.notes.map fun n => if n.id == nid then { n with references := some ((note.references.getD []) ++ [ref]), updatedAt := now } else n }, ?_, ?_, ?_⟩
    · unfold addReferenceToNote
      rw [hf]
    · have hmap := List.mem_map_of_mem
        (fun n : Note => if n.id == nid then { n with references := some ((note.references.getD []) ++ [ref]), updatedAt := now } else n) hmem
      simpa [hid] using hmap
    · simp

/-- Witness for C8 at the concrete note. -/
theorem addReferenceToNote_spec_witness :
    ∃ s', addReferenceToNote 9 "n1" exRef exNoteStore = .ok s' ∧
      ({ exNote with references := some ((exNote.references.getD []) ++ [exRef]),
                     updatedAt := 9 } : Note) ∈ s'.notes ∧
      s'.notes.length = exNoteStore.notes.length :=
  (addReferenceToNote_spec 9 "n1" exRef exNoteStore (by decide)).2 exNote (by decide) rfl

/-- C9 counterexample: updateNote on a missing note id does not fail at
all: the underlying keyed update resolves as a silent no-op, so the call
returns normally with the notes collection unchanged, where the claim
demands a NotFound error. -/
theorem updateNote_missing_counterexample :
    updateNote 5 "n2" exNoteUpd exNoteStore = exNoteStore := by
  exact rfl

/-- C9 amended: updateNote on a missing note id is a silent no-op that
leaves the store unchanged (no NotFound error is raised; only
addReferenceToNote checks existence), and on an existing note it merges
the partial fields and sets updatedAt to now. -/
theorem updateNote_amended (now : Nat) (nid : String) (u : NoteUpdate) (s : Store) :
    ((∀ n ∈ s.notes, ¬ n.id = nid) → updateNote now nid u s = s) ∧
    (∀ note ∈ s.notes, note.id = nid →
        applyNoteUpdate { u with updatedAt := some now } note
          ∈ (updateNote now nid u s).notes) := by
  constructor
  · intro hmiss
    unfold updateNote
    have hmap : (s.notes.map fun n =>
        if n.id == nid then applyNoteUpdate { u with updatedAt := some now } n else n)
        = s.notes.map id := by
      refine List.map_congr_left ?_
      intro n hn
      have : (n.id == nid) = false := by simp [hmiss n hn]
      simp [this]
    rw [hmap, List.map_id]
  · intro note hmem hid
    have hmap := List.mem_map_of_mem
      (fun n : Note =>
        if n.id == nid then applyNoteUpdate { u with updatedAt := some now } n else n) hmem
    simpa [updateNote, hid] using hmap

/-- Witness for the amended C9: the missing-note no-op and the
existing-note merge at concrete inputs. -/
theorem updateNote_amended_witness :
    updateNote 5 "n2" exNoteUpd exNoteStore = exNoteStore ∧
    applyNoteUpdate { exNoteUpd with updatedAt := some 5 } exNote
      ∈ (updateNote 5 "n1" exNoteUpd exNoteStore).notes :=
  ⟨(updateNote_amended 5 "n2" exNoteUpd exNoteStore).1 (by decide),
   (updateNote_amended 5 "n1" exNoteUpd exNoteStore).2 exNote (by decide) rfl⟩

/-- C10: loadChatSession returns null when no session exists for the
article; when the session exists but its expiresAt is before now it
deletes that row (by id) and returns null; otherwise it returns the
session messages and leaves the store unchanged. -/
theorem loadChatSession_spec (now : Nat) (aid : String) (s : Store)
    (h : (s.chatSessions.filter (fun c => c.articleId == aid)).length ≤ 1) :
    ((∀ c ∈ s.chatSessions, ¬ c.articleId = aid) →
        loadChatSession now aid s = (none, s)) ∧
    (∀ sess ∈ s.chatSessions, sess.articleId = aid →
      (sess.expiresAt < now →
        loadChatSession now aid s
          = (none, { s with chatSessions :=
              s.chatSessions.filter (fun c => !(c.id == sess.id)) })) ∧
      (¬ sess.expiresAt < now →
        loadChatSession now aid s = (some sess.messages, s))) := by
  constructor
  · intro hmiss
    have hf : s.chatSessions.find? (fun c => c.articleId == aid) = none :=
      List.find?_eq_none.2 (fun c hc => by simp [hmiss c hc])
    unfold loadChatSession
    rw [hf]
  · intro sess hmem hid
    have hf : s.chatSessions.find? (fun c => c.articleId == aid) = some sess :=
      find?_eq_some_of_unique _ _ _ hmem (by simp [hid]) h
    constructor
    · intro hexp
      unfold loadChatSession
      rw [hf]
      simp [hexp]
    · intro hexp
      unfold loadChatSession
      rw [hf]
      simp [hexp]

/-- Witness for C10: the concrete expired session is deleted and null is
returned. -/
theorem loadChatSession_spec_witness :
    loadChatSession 100 "a1" exChatStore
      = (none, { exChatStore with chatSessions :=
          exChatStore.chatSessions.filter (fun c => !(c.id == exSession.id)) }) :=
  ((loadChatSession_spec 100 "a1" exChatStore (by decide)).2 exSession
    (by decide) rfl).1 (by decide)

end Folo
